import Mathlib

/-!
Shallow embedding of the trash-day address-resolution engine of
mycity/mycity/intents/trash_intent.py, together with theorems settling the
claims about its behaviour. The HTTP transport is outside the model: each
embedded function takes the decoded payload its source counterpart works on
after the network call. Python dicts are modelled as association lists in
insertion order, uncaught runtime exceptions as a dedicated result, and the
two regular-expression operations of the source are implemented directly on
character lists.
-/

namespace TrashIntent

/-- Python substring test, needle in haystack, on character data. -/
def charsContain (needle haystack : List Char) : Bool :=
  match haystack with
  | [] => needle.isEmpty
  | _ :: rest => needle.isPrefixOf haystack || charsContain needle rest

/-- Python substring test on strings, needle in haystack. -/
def pyIn (needle haystack : String) : Bool :=
  charsContain needle.toList haystack.toList

/-- Python str.lower, lowercasing each character. -/
def pyLower (s : String) : String :=
  String.mk (s.toList.map Char.toLower)

/-- One candidate record of the JSON array returned by the ReCollect
    address-suggest endpoint: the canonical formatted address in the field
    called name, plus the remaining routing fields of the object. -/
structure Candidate where
  name : String
  otherFields : List (String × String)
  deriving DecidableEq, Repr

/-- Leftmost match of the regular expression of five consecutive digits, as
    in re.search of the source at line 128: the matched five-character
    substring, or none when the name holds no run of five digits. -/
def searchFiveDigits : List Char → Option String
  | [] => none
  | c :: cs =>
    let first5 := (c :: cs).take 5
    if first5.length == 5 && first5.all Char.isDigit then some (String.mk first5)
    else searchFiveDigits cs

/-- Update of the accumulating zip-code index in find_unique_zipcodes: an
    existing key has the index appended to its list, a new key is inserted
    at the end, matching Python dict insertion order. -/
def addZipIndex (acc : List (String × List Nat)) (z : String) (i : Nat) :
    List (String × List Nat) :=
  if (acc.lookup z).isSome then
    acc.map (fun p => if p.1 = z then (p.1, p.2 ++ [i]) else p)
  else acc ++ [(z, [i])]

/-- Enumeration loop of find_unique_zipcodes from index i with accumulator
    acc. The source calls group 0 on the result of re.search directly, so a
    candidate whose name has no five-digit run raises AttributeError; that
    uncaught exception is modelled as none. The truthiness test on the
    matched text in the source is mirrored by the emptiness check. -/
def find_unique_zipcodes_from (i : Nat) (acc : List (String × List Nat)) :
    List Candidate → Option (List (String × List Nat))
  | [] => some acc
  | c :: cs =>
    match searchFiveDigits c.name.toList with
    | none => none
    | some z =>
      if z.isEmpty then find_unique_zipcodes_from (i + 1) acc cs
      else find_unique_zipcodes_from (i + 1) (addZipIndex acc z i) cs

/-- Embedding of find_unique_zipcodes, trash_intent.py lines 116 to 135:
    from the decoded candidate array to the insertion-ordered map from zip
    code to the list of candidate indices carrying it, or none when the
    loop raises on a name without a five-digit run. -/
def find_unique_zipcodes (address_request_json : List Candidate) :
    Option (List (String × List Nat)) :=
  find_unique_zipcodes_from 0 [] address_request_json

/-- Outcome of get_address_api_info: a candidate record, the empty dict,
    the raised MultipleAddressError, or an uncaught runtime exception
    escaping from the zip-code indexing or the list indexing. -/
inductive AddressApiResult where
  | found : Candidate → AddressApiResult
  | empty : AddressApiResult
  | multipleAddressError : AddressApiResult
  | crash : AddressApiResult
  deriving DecidableEq, Repr

/-- Embedding of the disambiguation logic of get_address_api_info,
    trash_intent.py lines 208 to 224, on the decoded suggestion payload.
    The earlier transport branches of the source, a non-success status or
    an empty body, already returned the empty dict, which the model folds
    into the emptiness test on the input list. A zip code argument of none
    or the empty string is falsy in the source. -/
def get_address_api_info (result_json : List Candidate)
    (provided_zip_code : Option String) : AddressApiResult :=
  if result_json.isEmpty then .empty
  else
    match find_unique_zipcodes result_json with
    | none => .crash
    | some unique_zip_codes =>
      if 1 < unique_zip_codes.length then
        match provided_zip_code with
        | some z =>
          if z.isEmpty then .multipleAddressError
          else
            match unique_zip_codes.lookup z with
            | some (i :: _) =>
              match result_json.get? i with
              | some c => .found c
              | none => .crash
            | some [] => .crash
            | none => .empty
        | none => .multipleAddressError
      else
        match result_json.get? 0 with
        | some c => .found c
        | none => .crash

/-- Typed failures of the pipeline, matching the exception classes the
    source raises, plus the modelled uncaught runtime exception. -/
inductive TrashError where
  | invalidAddress
  | badAPIResponse
  | multipleAddress
  | crash
  deriving DecidableEq, Repr

/-- Embedding of the address-resolution step of get_trash_and_recycling_days,
    trash_intent.py lines 99 to 101: an empty result of get_address_api_info
    raises InvalidAddressError, the MultipleAddressError raised below it
    propagates, and a found candidate flows on to validation. -/
def trash_pipeline_address_step (result_json : List Candidate)
    (zip_code : Option String) : Except TrashError Candidate :=
  match get_address_api_info result_json zip_code with
  | .found c => .ok c
  | .empty => .error .invalidAddress
  | .multipleAddressError => .error .multipleAddress
  | .crash => .error .crash

/-- Fields of a street address as produced by the external
    StreetAddressParser, the tokenizer collaborator of the engine: house
    number, street name and street type, each a string. -/
structure ParsedAddress where
  house : String
  street_name : String
  street_type : String
  deriving DecidableEq, Repr

/-- Embedding of validate_found_address, trash_intent.py lines 138 to 174,
    on the two already-parsed addresses: the first argument is the parse of
    the candidate found in the collection database, the second the parse of
    the user input. -/
def validate_found_address (found_address user_provided_address : ParsedAddress) : Bool :=
  if found_address.house ≠ user_provided_address.house then false
  else if pyLower found_address.street_name ≠ pyLower user_provided_address.street_name then
    false
  else if pyIn "rd" (pyLower found_address.street_type) &&
      pyIn "road" (pyLower user_provided_address.street_type) then true
  else if !pyIn (pyLower found_address.street_type) (pyLower user_provided_address.street_type) &&
      !pyIn (pyLower user_provided_address.street_type) (pyLower found_address.street_type) then
    false
  else true

/-- Python dict pop: the mapping with the entry of the key removed. -/
def dictPop (m : List (String × String)) (k : String) : List (String × String) :=
  m.filter (fun p => p.1 != k)

/-- Entry rewrite that Python dict assignment performs on an existing key:
    the entry with that key takes the new value in place. -/
def updEntry (k v : String) (p : String × String) : String × String :=
  if p.1 = k then (p.1, v) else p

/-- Python dict assignment: an existing key keeps its position and takes
    the new value, a new key is appended at the end. -/
def dictSet (m : List (String × String)) (k v : String) : List (String × String) :=
  if (m.lookup k).isSome then m.map (updEntry k v)
  else m ++ [(k, v)]

/-- Embedding of the in-place parameter rewrite at the start of
    get_trash_day_data, trash_intent.py lines 236 to 237: the value of the
    argument dict after the conditional pop and reassignment ran; the HTTP
    request issued afterwards is outside the model. -/
def get_trash_day_data_params (api_parameters : List (String × String)) :
    List (String × String) :=
  match api_parameters.lookup "name" with
  | some v => dictSet (dictPop api_parameters "name") "formatted_address" v
  | none => api_parameters

/-- Innermost level of the schedule payload: the zone object, whose title
    key may be absent. -/
structure Zone where
  title : Option String
  deriving DecidableEq, Repr

/-- Middle level of the schedule payload: the next event object, whose zone
    key may be absent. -/
structure NextEvent where
  zone : Option Zone
  deriving DecidableEq, Repr

/-- Decoded schedule payload of the ReCollect places endpoint: only the
    nested path next_event, zone, title is contractually read, and any key
    on it may be absent. -/
structure TrashData where
  next_event : Option NextEvent
  deriving DecidableEq, Repr

/-- Match of the day-code regular expression, digits then an optional
    letter A then space hyphen space, at the head of the character list; on
    success the remainder after the match. Backtracking into a shorter
    digit run can never help, because a digit can neither begin the literal
    tail nor be the optional letter, so taking the maximal run is exact. -/
def matchDayCode (cs : List Char) : Option (List Char) :=
  if (cs.takeWhile Char.isDigit).isEmpty then none
  else
    match cs.dropWhile Char.isDigit with
    | 'A' :: ' ' :: '-' :: ' ' :: r => some r
    | ' ' :: '-' :: ' ' :: r => some r
    | _ => none

/-- Fuelled left-to-right scan of re.sub with the day-code pattern and the
    empty replacement: at each position either delete a match and continue
    after it, or keep one character and advance. The fuel only serves
    termination; the wrapper passes the list length, which the scan cannot
    exhaust since every step consumes at least one character. -/
def reSubDayCodeAux : Nat → List Char → List Char
  | 0, cs => cs
  | _ + 1, [] => []
  | fuel + 1, c :: cs =>
    match matchDayCode (c :: cs) with
    | some r => reSubDayCodeAux fuel r
    | none => c :: reSubDayCodeAux fuel cs

/-- The re.sub call of the source at line 262: every occurrence of the
    day-code pattern deleted from the string. -/
def reSubDayCode (s : String) : String :=
  String.mk (reSubDayCodeAux s.toList.length s.toList)

/-- Python str.replace removing every ampersand. -/
def removeAmp (s : String) : String :=
  String.mk (s.toList.filter (fun c => c != '&'))

/-- Python str.split with no separator, on character data: split on runs of
    whitespace, dropping empty pieces; the first argument accumulates the
    current word in reverse. -/
def splitWSAux : List Char → List Char → List String
  | acc, [] => if acc.isEmpty then [] else [String.mk acc.reverse]
  | acc, c :: cs =>
    if c.isWhitespace then
      if acc.isEmpty then splitWSAux [] cs
      else String.mk acc.reverse :: splitWSAux [] cs
    else splitWSAux (c :: acc) cs

/-- Python str.split with no separator. -/
def pySplitWhitespace (s : String) : List String :=
  splitWSAux [] s.toList

/-- The title transformation of get_trash_days_from_trash_data: day codes
    deleted, ampersands removed, then split on whitespace. -/
def extract_days_from_title (title : String) : List String :=
  pySplitWhitespace (removeAmp (reSubDayCode title))

/-- Value of the nested path next_event, zone, title when every key on the
    path is present. -/
def titlePath (trash_data : TrashData) : Option String :=
  trash_data.next_event.bind (fun ev => ev.zone.bind (fun zn => zn.title))

/-- Embedding of get_trash_days_from_trash_data, trash_intent.py lines 250
    to 268: a missing key anywhere on the nested path raises KeyError,
    caught and re-raised as BadAPIResponse; otherwise the title string is
    stripped of day codes, cleared of ampersands and split on whitespace. -/
def get_trash_days_from_trash_data (trash_data : TrashData) :
    Except TrashError (List String) :=
  match trash_data.next_event with
  | none => .error .badAPIResponse
  | some ev =>
    match ev.zone with
    | none => .error .badAPIResponse
    | some zn =>
      match zn.title with
      | none => .error .badAPIResponse
      | some s => .ok (extract_days_from_title s)

/-- Embedding of build_speech_from_list_of_days, trash_intent.py lines 271
    to 292: an empty list raises BadAPIResponse, one day is returned
    verbatim, two days are joined by the word and, three or more days are
    comma-joined with a final Oxford comma before the last. -/
def build_speech_from_list_of_days (days : List String) :
    Except TrashError String :=
  if days.length = 0 then .error .badAPIResponse
  else if days.length = 1 then .ok (days.headD "")
  else if days.length = 2 then .ok (String.intercalate " and " days)
  else .ok (String.intercalate ", " days.dropLast ++ ", and " ++ days.getLastD "")

/-- Claim C1: the spec states that a candidate whose canonical name has no
    five-digit substring is defensively skipped by the index builder; the
    code instead dereferences the failed regex match with group 0 and
    raises AttributeError, modelled as the none outcome, so the builder
    neither terminates normally nor returns an index omitting the
    candidate. -/
theorem find_unique_zipcodes_crash_on_missing_zip :
    find_unique_zipcodes [⟨"Main Street", []⟩] = none := by
  rfl

/-- Claim C2 counterexample: with equal house numbers and street names, a
    candidate street type whose lowercasing contains road and a user street
    type whose lowercasing contains rd, the validator rejects, refuting the
    claimed second direction of the special case. -/
theorem validate_rd_road_reverse_rejected :
    pyIn "road" (pyLower "Road") = true ∧
    pyIn "rd" (pyLower "Rd") = true ∧
    validate_found_address ⟨"1", "Main", "Road"⟩ ⟨"1", "Main", "Rd"⟩ = false := by
  decide

/-- Claim C2 amended: with equal house numbers and equal street names the
    validator accepts exactly when the candidate street type contains rd
    while the user street type contains road, case-insensitively, or one
    street type is a case-insensitive substring of the other; the reverse
    rd road direction is not accepted on its own. -/
theorem validate_street_type_rule (h n A B : String) :
    validate_found_address ⟨h, n, A⟩ ⟨h, n, B⟩ =
      (pyIn "rd" (pyLower A) && pyIn "road" (pyLower B) ||
       pyIn (pyLower A) (pyLower B) || pyIn (pyLower B) (pyLower A)) := by
  cases hc1 : pyIn "rd" (pyLower A) && pyIn "road" (pyLower B) <;>
    cases hc2 : pyIn (pyLower A) (pyLower B) <;>
      cases hc3 : pyIn (pyLower B) (pyLower A) <;>
        simp [validate_found_address, hc1, hc2, hc3]

/-- Concrete instance of the street-type characterization at the pair Ave
    and Avenue, where the generic substring rule accepts. -/
theorem validate_street_type_rule_witness :
    validate_found_address ⟨"1", "Main", "Ave"⟩ ⟨"1", "Main", "Avenue"⟩ =
      (pyIn "rd" (pyLower "Ave") && pyIn "road" (pyLower "Avenue") ||
       pyIn (pyLower "Ave") (pyLower "Avenue") ||
       pyIn (pyLower "Avenue") (pyLower "Ave")) :=
  validate_street_type_rule "1" "Main" "Ave" "Avenue"

/-- Claim C9: whenever the parsed house numbers differ as strings the
    validator rejects, whatever the street names and street types are. -/
theorem validate_house_mismatch_rejects
    (found_address user_provided_address : ParsedAddress)
    (h : found_address.house ≠ user_provided_address.house) :
    validate_found_address found_address user_provided_address = false := by
  unfold validate_found_address
  rw [if_pos h]

/-- Concrete instance of the house-number exactness theorem at the
    numerically equal but textually different pair 01 and 1. -/
theorem validate_house_mismatch_rejects_witness :
    validate_found_address ⟨"01", "Main", "St"⟩ ⟨"1", "Main", "St"⟩ = false :=
  validate_house_mismatch_rejects ⟨"01", "Main", "St"⟩ ⟨"1", "Main", "St"⟩ (by decide)

/-- Claim C3: when the zip-code index built from the candidate list holds
    more than one distinct zip code and no zip code was provided,
    disambiguation raises MultipleAddressError and returns no candidate. -/
theorem get_address_api_info_multiple_without_zip
    (result_json : List Candidate) (uz : List (String × List Nat))
    (h1 : find_unique_zipcodes result_json = some uz)
    (h2 : 1 < uz.length) :
    get_address_api_info result_json none = .multipleAddressError := by
  cases result_json with
  | nil =>
    simp only [find_unique_zipcodes, find_unique_zipcodes_from,
      Option.some.injEq] at h1
    rw [← h1] at h2
    simp at h2
  | cons c cs =>
    simp [get_address_api_info, h1, h2]

/-- Concrete instance of the ambiguity theorem on two candidates with
    distinct embedded zip codes and no provided zip code. -/
theorem get_address_api_info_multiple_without_zip_witness :
    get_address_api_info [⟨"A St, Boston 02118", []⟩, ⟨"B St, Boston 02119", []⟩]
      none = .multipleAddressError :=
  get_address_api_info_multiple_without_zip
    [⟨"A St, Boston 02118", []⟩, ⟨"B St, Boston 02119", []⟩]
    [("02118", [0]), ("02119", [1])] (by decide) (by decide)

/-- Claim C4: with more than one distinct zip code in the index and a
    provided nonempty zip code that is not a key of the index,
    disambiguation returns the empty no-match result rather than raising,
    and the pipeline caller maps that emptiness to InvalidAddressError. -/
theorem get_address_api_info_unknown_zip_empty
    (result_json : List Candidate) (uz : List (String × List Nat)) (z : String)
    (h1 : find_unique_zipcodes result_json = some uz)
    (h2 : 1 < uz.length)
    (h3 : z.isEmpty = false)
    (h4 : uz.lookup z = none) :
    get_address_api_info result_json (some z) = .empty ∧
      trash_pipeline_address_step result_json (some z) =
        .error .invalidAddress := by
  have hmain : get_address_api_info result_json (some z) = .empty := by
    cases result_json with
    | nil =>
      simp only [find_unique_zipcodes, find_unique_zipcodes_from,
        Option.some.injEq] at h1
      rw [← h1] at h2
      simp at h2
    | cons c cs =>
      simp [get_address_api_info, h1, h2, h3, h4]
  exact ⟨hmain, by simp [trash_pipeline_address_step, hmain]⟩

/-- Concrete instance of the unknown-zip theorem: two distinct zip codes in
    the index, provided code 02120 absent from it. -/
theorem get_address_api_info_unknown_zip_empty_witness :
    get_address_api_info [⟨"A St 02118", []⟩, ⟨"B St 02119", []⟩]
      (some "02120") = .empty ∧
    trash_pipeline_address_step [⟨"A St 02118", []⟩, ⟨"B St 02119", []⟩]
      (some "02120") = .error .invalidAddress :=
  get_address_api_info_unknown_zip_empty
    [⟨"A St 02118", []⟩, ⟨"B St 02119", []⟩]
    [("02118", [0]), ("02119", [1])] "02120"
    (by decide) (by decide) (by decide) (by decide)

/-- Claim C5: with more than one distinct zip code in the index and a
    provided nonempty zip code that is a key of the index, disambiguation
    returns the candidate sitting at the first index recorded under that
    key. -/
theorem get_address_api_info_known_zip_first
    (result_json : List Candidate) (uz : List (String × List Nat))
    (z : String) (i : Nat) (rest : List Nat) (c : Candidate)
    (h1 : find_unique_zipcodes result_json = some uz)
    (h2 : 1 < uz.length)
    (h3 : z.isEmpty = false)
    (h4 : uz.lookup z = some (i :: rest))
    (h5 : result_json[i]? = some c) :
    get_address_api_info result_json (some z) = .found c := by
  cases result_json with
  | nil =>
    simp only [find_unique_zipcodes, find_unique_zipcodes_from,
      Option.some.injEq] at h1
    rw [← h1] at h2
    simp at h2
  | cons c0 cs =>
    simp [get_address_api_info, h1, h2, h3, h4, h5]

/-- Concrete instance of the disambiguation determinism scenario of the
    claim: index keys 02118 with index list 0 and 02119 with index list 1
    then 2, provided code 02119, the candidate at position 1 returned. -/
theorem get_address_api_info_known_zip_first_witness :
    find_unique_zipcodes
        [⟨"A St 02118", []⟩, ⟨"B St 02119", []⟩, ⟨"C St 02119", []⟩] =
      some [("02118", [0]), ("02119", [1, 2])] ∧
    get_address_api_info
        [⟨"A St 02118", []⟩, ⟨"B St 02119", []⟩, ⟨"C St 02119", []⟩]
        (some "02119") = .found ⟨"B St 02119", []⟩ :=
  ⟨by decide,
   get_address_api_info_known_zip_first
     [⟨"A St 02118", []⟩, ⟨"B St 02119", []⟩, ⟨"C St 02119", []⟩]
     [("02118", [0]), ("02119", [1, 2])] "02119" 1 [2] ⟨"B St 02119", []⟩
     (by decide) (by decide) (by decide) (by decide) (by decide)⟩

/-- Claim C6: when the index of a non-empty candidate list holds exactly
    one distinct zip code, disambiguation returns the first candidate of
    the list, for every provided zip code value including none. -/
theorem get_address_api_info_single_zip_first
    (c : Candidate) (cs : List Candidate) (uz : List (String × List Nat))
    (zip_code : Option String)
    (h1 : find_unique_zipcodes (c :: cs) = some uz)
    (h2 : uz.length = 1) :
    get_address_api_info (c :: cs) zip_code = .found c := by
  simp [get_address_api_info, h1, h2]

/-- Concrete instance of the single-zip shortcut: two candidates sharing
    zip code 02118, no zip code provided, the first candidate returned. -/
theorem get_address_api_info_single_zip_first_witness :
    get_address_api_info [⟨"A St 02118", []⟩, ⟨"B St 02118", []⟩] none =
      .found ⟨"A St 02118", []⟩ :=
  get_address_api_info_single_zip_first ⟨"A St 02118", []⟩ [⟨"B St 02118", []⟩]
    [("02118", [0, 1])] none (by decide) (by decide)

/-- Claim C7: the schedule parser raises BadAPIResponse exactly when the
    nested path next_event, zone, title is absent; a present title is
    returned with every day-code occurrence deleted, ampersands removed and
    the rest split on whitespace, so the title 3A dash Monday ampersand
    Tuesday yields the two days Monday and Tuesday, and a title reducing to
    nothing yields the empty list without error at this layer. -/
theorem get_trash_days_path_spec :
    (∀ trash_data : TrashData, titlePath trash_data = none →
        get_trash_days_from_trash_data trash_data = .error .badAPIResponse) ∧
    (∀ (trash_data : TrashData) (s : String), titlePath trash_data = some s →
        get_trash_days_from_trash_data trash_data =
          .ok (extract_days_from_title s)) ∧
    get_trash_days_from_trash_data ⟨some ⟨some ⟨some "3A - Monday &Tuesday"⟩⟩⟩ =
      .ok ["Monday", "Tuesday"] ∧
    get_trash_days_from_trash_data ⟨some ⟨some ⟨some "3A - "⟩⟩⟩ = .ok [] := by
  refine ⟨?_, ?_, by rfl, by rfl⟩
  · intro td h
    obtain ⟨ev⟩ := td
    cases ev with
    | none => rfl
    | some e =>
      obtain ⟨zn⟩ := e
      cases zn with
      | none => rfl
      | some z =>
        obtain ⟨t⟩ := z
        cases t with
        | none => rfl
        | some s => simp [titlePath] at h
  · intro td s h
    obtain ⟨ev⟩ := td
    cases ev with
    | none => simp [titlePath] at h
    | some e =>
      obtain ⟨zn⟩ := e
      cases zn with
      | none => simp [titlePath] at h
      | some z =>
        obtain ⟨t⟩ := z
        cases t with
        | none => simp [titlePath] at h
        | some s0 =>
          have hs : s0 = s := by simpa [titlePath] using h
          rw [← hs]
          rfl

/-- Concrete instances of the schedule parser theorem: an empty payload
    fails with BadAPIResponse and a present title is transformed. -/
theorem get_trash_days_path_spec_witness :
    get_trash_days_from_trash_data ⟨none⟩ = .error .badAPIResponse ∧
    get_trash_days_from_trash_data ⟨some ⟨some ⟨some "2 - Monday"⟩⟩⟩ =
      .ok (extract_days_from_title "2 - Monday") :=
  ⟨get_trash_days_path_spec.1 ⟨none⟩ rfl,
   get_trash_days_path_spec.2.1 ⟨some ⟨some ⟨some "2 - Monday"⟩⟩⟩ "2 - Monday" rfl⟩

/-- Claim C8: the speech formatter raises BadAPIResponse exactly on the
    empty list, returns a single day verbatim, joins two days with the word
    and, and joins three or more days with commas and a final Oxford comma
    before the last, as on the three-day example. -/
theorem build_speech_spec :
    (∀ days : List String,
        build_speech_from_list_of_days days = .error .badAPIResponse ↔
          days = []) ∧
    (∀ d : String, build_speech_from_list_of_days [d] = .ok d) ∧
    (∀ d1 d2 : String,
        build_speech_from_list_of_days [d1, d2] =
          .ok (String.intercalate " and " [d1, d2])) ∧
    (∀ (front : List String) (dl : String), 2 ≤ front.length →
        build_speech_from_list_of_days (front ++ [dl]) =
          .ok (String.intercalate ", " front ++ ", and " ++ dl)) ∧
    build_speech_from_list_of_days ["Monday", "Tuesday", "Wednesday"] =
      .ok "Monday, Tuesday, and Wednesday" := by
  refine ⟨?_, ?_, ?_, ?_, by rfl⟩
  · intro days
    cases days with
    | nil => simp [build_speech_from_list_of_days]
    | cons d ds =>
      unfold build_speech_from_list_of_days
      split_ifs with hc1 hc2 hc3 <;> simp_all
  · intro d
    rfl
  · intro d1 d2
    rfl
  · intro front dl hlen
    unfold build_speech_from_list_of_days
    rw [if_neg (by simp only [List.length_append, List.length_singleton]; omega),
      if_neg (by simp only [List.length_append, List.length_singleton]; omega),
      if_neg (by simp only [List.length_append, List.length_singleton]; omega),
      List.dropLast_concat, List.getLastD_concat]

/-- Concrete instances of the formatter theorem at the empty, one-day and
    two-day boundary cases of the claim. -/
theorem build_speech_spec_witness :
    (build_speech_from_list_of_days [] = .error .badAPIResponse ↔
      ([] : List String) = []) ∧
    build_speech_from_list_of_days ["Monday"] = .ok "Monday" ∧
    build_speech_from_list_of_days ["Monday", "Tuesday"] =
      .ok (String.intercalate " and " ["Monday", "Tuesday"]) ∧
    build_speech_from_list_of_days (["Monday", "Tuesday"] ++ ["Wednesday"]) =
      .ok (String.intercalate ", " ["Monday", "Tuesday"] ++ ", and " ++
        "Wednesday") :=
  ⟨build_speech_spec.1 [], build_speech_spec.2.1 "Monday",
   build_speech_spec.2.2.1 "Monday" "Tuesday",
   build_speech_spec.2.2.2.1 ["Monday", "Tuesday"] "Wednesday" (by decide)⟩

/-- Lookup of the popped key in a popped dict yields nothing. -/
theorem lookup_dictPop_self (m : List (String × String)) (k : String) :
    (dictPop m k).lookup k = none := by
  induction m with
  | nil => rfl
  | cons p m ih =>
    obtain ⟨a, b⟩ := p
    by_cases h : a = k
    · simpa [dictPop, List.filter_cons, h] using ih
    · have ha : (a != k) = true := bne_iff_ne.mpr h
      have hb : (k == a) = false := beq_eq_false_iff_ne.mpr (Ne.symm h)
      simpa [dictPop, List.filter_cons, ha, List.lookup, hb] using ih

/-- Lookup of a different key is unchanged by a pop. -/
theorem lookup_dictPop_other (m : List (String × String)) (k k2 : String)
    (hne : k ≠ k2) : (dictPop m k2).lookup k = m.lookup k := by
  induction m with
  | nil => rfl
  | cons p m ih =>
    obtain ⟨a, b⟩ := p
    by_cases h : a = k2
    · have hb : (k == k2) = false := beq_eq_false_iff_ne.mpr hne
      have hb2 : (k == a) = false :=
        beq_eq_false_iff_ne.mpr (fun he => hne (he.trans h))
      simpa [dictPop, List.filter_cons, h, List.lookup, hb, hb2] using ih
    · have ha : (a != k2) = true := bne_iff_ne.mpr h
      by_cases hk : k = a
      · subst hk
        simp [dictPop, List.filter_cons, ha, List.lookup]
      · have hb : (k == a) = false := beq_eq_false_iff_ne.mpr hk
        simpa [dictPop, List.filter_cons, ha, List.lookup, hb] using ih

/-- Lookup of an updated key after the in-place value update that dict
    assignment performs on an existing key. -/
theorem lookup_map_update_self (m : List (String × String)) (k v : String)
    (h : (m.lookup k).isSome = true) :
    (m.map (updEntry k v)).lookup k = some v := by
  induction m with
  | nil => simp [List.lookup] at h
  | cons p m ih =>
    obtain ⟨a, b⟩ := p
    by_cases ha : a = k
    · subst ha
      have hhead : updEntry a v (a, b) = (a, v) := by simp [updEntry]
      rw [List.map_cons, hhead]
      simp [List.lookup]
    · have hhead : updEntry k v (a, b) = (a, b) := by simp [updEntry, ha]
      have hb : (k == a) = false := beq_eq_false_iff_ne.mpr (Ne.symm ha)
      rw [List.map_cons, hhead]
      simp only [List.lookup, hb] at h ⊢
      exact ih h

/-- Lookup of a fresh key after dict assignment appended it at the end. -/
theorem lookup_append_single_self (m : List (String × String)) (k v : String)
    (h : m.lookup k = none) :
    (m ++ [(k, v)]).lookup k = some v := by
  induction m with
  | nil => simp [List.lookup]
  | cons p m ih =>
    obtain ⟨a, b⟩ := p
    by_cases ha : a = k
    · subst ha
      simp [List.lookup] at h
    · have hb : (k == a) = false := beq_eq_false_iff_ne.mpr (Ne.symm ha)
      simp only [List.lookup, hb] at h
      simpa [List.cons_append, List.lookup, hb] using ih h

/-- Lookup of a different key is unchanged by the in-place value update. -/
theorem lookup_map_update_other (m : List (String × String)) (k k2 v : String)
    (hne : k ≠ k2) :
    (m.map (updEntry k2 v)).lookup k = m.lookup k := by
  induction m with
  | nil => rfl
  | cons p m ih =>
    obtain ⟨a, b⟩ := p
    by_cases ha : a = k2
    · subst ha
      have hhead : updEntry a v (a, b) = (a, v) := by simp [updEntry]
      have hb : (k == a) = false := beq_eq_false_iff_ne.mpr hne
      rw [List.map_cons, hhead]
      simp only [List.lookup, hb]
      exact ih
    · have hhead : updEntry k2 v (a, b) = (a, b) := by simp [updEntry, ha]
      rw [List.map_cons, hhead]
      by_cases hk : k = a
      · subst hk
        simp [List.lookup]
      · have hb : (k == a) = false := beq_eq_false_iff_ne.mpr hk
        simp only [List.lookup, hb]
        exact ih

/-- Lookup of a different key is unchanged by appending a fresh entry. -/
theorem lookup_append_single_other (m : List (String × String)) (k k2 v : String)
    (hne : k ≠ k2) :
    (m ++ [(k2, v)]).lookup k = m.lookup k := by
  have hb : (k == k2) = false := beq_eq_false_iff_ne.mpr hne
  induction m with
  | nil => simp [List.lookup, hb]
  | cons p m ih =>
    obtain ⟨a, b⟩ := p
    by_cases hk : k = a
    · subst hk
      simp [List.lookup]
    · have hb2 : (k == a) = false := beq_eq_false_iff_ne.mpr hk
      simpa [List.cons_append, List.lookup, hb2] using ih

/-- Dict assignment makes the assigned key hold the assigned value. -/
theorem lookup_dictSet_self (m : List (String × String)) (k v : String) :
    (dictSet m k v).lookup k = some v := by
  unfold dictSet
  by_cases h : (m.lookup k).isSome = true
  · rw [if_pos h]
    exact lookup_map_update_self m k v h
  · rw [if_neg h]
    refine lookup_append_single_self m k v ?_
    cases hm : m.lookup k
    · rfl
    · rw [hm] at h
      simp at h

/-- Dict assignment leaves every other key unchanged. -/
theorem lookup_dictSet_other (m : List (String × String)) (k k2 v : String)
    (hne : k ≠ k2) :
    (dictSet m k2 v).lookup k = m.lookup k := by
  unfold dictSet
  by_cases h : (m.lookup k2).isSome = true
  · rw [if_pos h]
    exact lookup_map_update_other m k k2 v hne
  · rw [if_neg h]
    exact lookup_append_single_other m k k2 v hne

/-- Claim C10: after the parameter rewrite of get_trash_day_data runs on a
    dict holding the key name, the key name is gone, the key
    formatted_address holds the former value of name, and every key other
    than those two keeps its binding. -/
theorem get_trash_day_data_params_rename
    (m : List (String × String)) (v : String)
    (h : m.lookup "name" = some v) :
    (get_trash_day_data_params m).lookup "name" = none ∧
    (get_trash_day_data_params m).lookup "formatted_address" = some v ∧
    ∀ k : String, k ≠ "name" → k ≠ "formatted_address" →
      (get_trash_day_data_params m).lookup k = m.lookup k := by
  unfold get_trash_day_data_params
  rw [h]
  refine ⟨?_, ?_, ?_⟩
  · rw [lookup_dictSet_other _ _ _ _ (by decide)]
    exact lookup_dictPop_self m "name"
  · exact lookup_dictSet_self _ _ _
  · intro k hk1 hk2
    rw [lookup_dictSet_other _ _ _ _ hk2]
    exact lookup_dictPop_other m k "name" hk1

/-- Concrete instance of the parameter rewrite theorem on a dict with a
    routing field, the name field and a further field. -/
theorem get_trash_day_data_params_rename_witness :
    (get_trash_day_data_params
        [("service_id", "310"), ("name", "12 Main St"), ("area_id", "7")]).lookup
      "name" = none ∧
    (get_trash_day_data_params
        [("service_id", "310"), ("name", "12 Main St"), ("area_id", "7")]).lookup
      "formatted_address" = some "12 Main St" ∧
    (get_trash_day_data_params
        [("service_id", "310"), ("name", "12 Main St"), ("area_id", "7")]).lookup
      "service_id" = some "310" := by
  refine ⟨(get_trash_day_data_params_rename _ "12 Main St" (by decide)).1,
    (get_trash_day_data_params_rename _ "12 Main St" (by decide)).2.1, ?_⟩
  rw [(get_trash_day_data_params_rename
    [("service_id", "310"), ("name", "12 Main St"), ("area_id", "7")]
    "12 Main St" (by decide)).2.2 "service_id" (by decide) (by decide)]
  decide

end TrashIntent
